import Mathlib

/-!
Shallow embedding of `src/lib/Interactor/WebsocketTransport.js` (the pm2
interactor websocket transport) and verification of its specification.

Modelling conventions:
* JavaScript values are modelled by the inductive `JsValue`; JS truthiness
  (`!x` checks) is the Boolean predicate `truthy`.
* Each transport method is a pure function from the transport state to the
  new state together with the ordered list of observable `Effect`s it
  performs (socket opens/closes/writes, ping frames, emitted events).
  The list order is the execution order of the side effects in the source.
* The websocket library (`ws`), the cipher routine (`Utility.Cipher`), the
  daemon metadata provider and `constants.js` are outside `src/`; the parts
  of them that the claims need are modelled from the spec and marked so.
-/

/-- Model of a JavaScript value, as far as the transport inspects them:
`undefined`, `null`, booleans, (integer) numbers, strings and objects
given by their ordered field list. -/
inductive JsValue where
  | undefined
  | null
  | bool (b : Bool)
  | num (n : Int)
  | str (s : String)
  | obj (fields : List (String × JsValue))

/-- JavaScript truthiness, as tested by `!x` in the source:
`undefined`, `null`, `false`, `0` and `""` are falsy; every other modelled
value (any object, any other number/string, `true`) is truthy. -/
def truthy : JsValue → Bool
  | .undefined => false
  | .null => false
  | .bool b => b
  | .num n => n != 0
  | .str s => s != ""
  | .obj _ => true

/-- Property access `v.k`: on an object, the value of field `k` (or
`undefined` when absent); on any non-object it yields `undefined`
(the guard `!data` in the source rules out `null`/`undefined` receivers
before any access, so the `TypeError` case never arises there). -/
def getField (v : JsValue) (k : String) : JsValue :=
  match v with
  | .obj fields => ((fields.find? (fun p => p.1 == k)).map (fun p => p.2)).getD .undefined
  | _ => .undefined

/-- Key presence: `k in v` for an object value — the field exists,
whatever its value. -/
def hasField (v : JsValue) (k : String) : Bool :=
  match v with
  | .obj fields => fields.any (fun p => p.1 == k)
  | _ => false

mutual

/-- Model of `JSON.stringify` on modelled values (the transport only ever
serializes; no claim inspects the concrete text, only that serialization
is applied). -/
def jsonStringify : JsValue → String
  | .undefined => "undefined"
  | .null => "null"
  | .bool b => cond b "true" "false"
  | .num n => toString n
  | .str s => "\"" ++ s ++ "\""
  | .obj fields => "\x7b" ++ jsonStringifyFields fields ++ "\x7d"

/-- Serialization of an object's field list, comma separated. -/
def jsonStringifyFields : List (String × JsValue) → String
  | [] => ""
  | [(k, v)] => "\"" ++ k ++ "\":" ++ jsonStringify v
  | (k, v) :: rest => "\"" ++ k ++ "\":" ++ jsonStringify v ++ "," ++ jsonStringifyFields rest

end

/-- Modelled from the spec: `Utility.Cipher.cipherMessage` lives outside
`src/`; the spec treats it as a given function
`cipher(plaintext, secretKey) -> token`. Modelled as an abstract token
constructor that records both arguments, so that which plaintext was
enciphered under which key is visible in the theorems. -/
def cipherMessage (plaintext : String) (key : JsValue) : JsValue :=
  .obj [("ciphertext", .str plaintext), ("key", key)]

/-- Modelled from the spec: `cst.PROTOCOL_VERSION` comes from
`constants.js`, outside `src/`; the spec says only that it is a fixed
protocol version per build. -/
def PROTOCOL_VERSION : JsValue := .num 1

/-- Modelled from the spec: `cst.COMPRESS_PROTOCOL` comes from
`constants.js`, outside `src/`; it is the configured compression flag
(the source applies `|| false` to it before use). -/
def COMPRESS_PROTOCOL : Bool := false

/-- Static configuration of the transport (`this.opts` in the source). -/
structure Opts where
  PUBLIC_KEY : JsValue
  SECRET_KEY : JsValue
  MACHINE_NAME : JsValue
  PM2_VERSION : JsValue

/-- State of an underlying `ws` socket handle, as far as the transport
observes it: the url it was opened to, the headers it was opened with,
and its readyState (0 = CONNECTING, 1 = OPEN, 2 = CLOSING, 3 = CLOSED). -/
structure Socket where
  url : JsValue
  headers : List (String × JsValue)
  readyState : Nat

/-- Wire envelope built by `send`: exactly the three fields the source
puts into `packet`, in the source's insertion order. -/
structure Envelope where
  version : JsValue
  payload : JsValue
  channel : JsValue

/-- Observable side effect of a transport operation, in execution order:
opening a socket with headers, calling `ws.close(code, reason)`, writing a
serialized envelope with a compression flag, sending a ping control frame,
or emitting an event to subscribers. -/
inductive Effect where
  | socketOpen (url : JsValue) (headers : List (String × JsValue))
  | socketClose (code : Nat) (reason : JsValue)
  | write (frame : Envelope) (compress : Bool)
  | pingFrame (payload : String)
  | emit (event : JsValue) (args : List JsValue)

/-- State of a `WebsocketTransport` instance: its options, the daemon's
system metadata (modelled from the spec: `this._daemon.getSystemMetadata()`
is outside `src/`; the spec calls it the system-metadata provider supplying
data to authenticate), the socket handle `this._ws` (`none` models `null`),
and `this._host` (`JsValue.undefined` before any `connect` assigns it). -/
structure Transport where
  opts : Opts
  daemonMetadata : JsValue
  ws : Option Socket
  host : JsValue

/-- Constructor state: `this._ws = null`, `this._host` never assigned. -/
def mkTransport (opts : Opts) (meta : JsValue) : Transport :=
  { opts := opts, daemonMetadata := meta, ws := none, host := .undefined }

/-- Source `isConnected`: `this._ws && this._ws.readyState === 1`. -/
def isConnected (t : Transport) : Bool :=
  match t.ws with
  | some s => s.readyState == 1
  | none => false

/-- Headers attached to the socket at connect time (source lines 44-49):
the cipher of the JSON-serialized system metadata under the secret key is
sent as `X-KM-DATA`. -/
def connectHeaders (t : Transport) : List (String × JsValue) :=
  [("X-KM-PUBLIC", t.opts.PUBLIC_KEY),
   ("X-KM-DATA", cipherMessage (jsonStringify t.daemonMetadata) t.opts.SECRET_KEY),
   ("X-KM-SERVER", t.opts.MACHINE_NAME),
   ("X-PM2-VERSION", t.opts.PM2_VERSION)]

/-- Source `connect(url, cb)`: records `this._host = url` and replaces
`this._ws` with a new socket opened to `url` with the auth headers (a
fresh `ws` socket starts in readyState 0). The callback wiring of
`connect` is modelled separately by `cbCalls` below. -/
def connect (t : Transport) (url : JsValue) : Transport × List Effect :=
  ({ t with host := url,
            ws := some { url := url, headers := connectHeaders t, readyState := 0 } },
   [Effect.socketOpen url (connectHeaders t)])

/-- Replace the readyState of the held socket, if any (`ws.close` moves an
open socket to CLOSING; the library's close event moves it to CLOSED). -/
def setReadyState (ws : Option Socket) (rs : Nat) : Option Socket :=
  ws.map (fun s => { s with readyState := rs })

/-- Source `disconnect`: when connected, `this._ws.close(1000,
'Disconnecting')`; otherwise nothing. The handle `this._ws` is not
cleared. -/
def disconnect (t : Transport) : Transport × List Effect :=
  if isConnected t then
    ({ t with ws := setReadyState t.ws 2 }, [Effect.socketClose 1000 (.str "Disconnecting")])
  else
    (t, [])

/-- Source `reconnect(url, cb)`: when the url argument is omitted (in the
source, when the first argument is the callback function), `url` becomes
`this._host`; then `disconnect()` followed by `connect(url, cb)`, with no
check that a prior host exists. -/
def reconnect (t : Transport) (url : Option JsValue) : Transport × List Effect :=
  let u := match url with
    | some u => u
    | none => t.host
  let step1 := disconnect t
  let step2 := connect step1.1 u
  (step2.1, step1.2 ++ step2.2)

/-- Source `_onClose(code, reason)`: re-emit as the `close` event. -/
def onClose (t : Transport) (code reason : JsValue) : Transport × List Effect :=
  (t, [Effect.emit (.str "close") [code, reason]])

/-- Source `_onError(err)`: when connected, first `this._ws.close(400,
err.message)`, then `this.emit('error', err)`; otherwise only the emit. -/
def onError (t : Transport) (err : JsValue) : Transport × List Effect :=
  if isConnected t then
    ({ t with ws := setReadyState t.ws 2 },
     [Effect.socketClose 400 (getField err "message"), Effect.emit (.str "error") [err]])
  else
    (t, [Effect.emit (.str "error") [err]])

/-- Source `_onMessage(data, flags)`: if `!data || !data.version ||
!data.payload || !data.channel`, only a diagnostic log (no event, no
error); otherwise `this.emit(data.channel, data.payload)`. Returns the
list of emitted (event, argument) pairs. -/
def onMessage (data : JsValue) : List (JsValue × JsValue) :=
  if !truthy data || !truthy (getField data "version") ||
     !truthy (getField data "payload") || !truthy (getField data "channel") then
    []
  else
    [(getField data "channel", getField data "payload")]

/-- Behaviour of the underlying `this._ws.ping(...)` call inside `ping`'s
`try` block: it throws when the handle is `null` (property access on
`null`) or when the socket is not open (the `ws` library throws on ping
over a non-open socket), and succeeds otherwise. -/
def wsPing (ws : Option Socket) : Except JsValue Unit :=
  match ws with
  | none => .error (.str "TypeError: Cannot read property ping of null")
  | some s => if s.readyState == 1 then .ok () else .error (.str "WebSocket is not open")

/-- Source `ping(data)`: `try { this._ws.ping(JSON.stringify(data), true,
false) } catch (err) { this.emit('error', err) }` — a total function on
every transport state; a throw from the underlying ping is caught and
emitted as the `error` event. -/
def ping (t : Transport) (data : JsValue) : List Effect :=
  match wsPing t.ws with
  | .ok _ => [Effect.pingFrame (jsonStringify data)]
  | .error e => [Effect.emit (.str "error") [e]]

/-- Source `send(channel, data)`: `if (!channel || !data)` log only;
`if (!this.isConnected())` log only; otherwise build
`packet = \x7b version: cst.PROTOCOL_VERSION, payload: data, channel: channel \x7d`
and write `JSON.stringify(packet)` with the compression option. The
transport state is unchanged in every case. -/
def send (t : Transport) (channel data : JsValue) : Transport × List Effect :=
  if !truthy channel || !truthy data then
    (t, [])
  else if !isConnected t then
    (t, [])
  else
    (t, [Effect.write { version := PROTOCOL_VERSION, payload := data, channel := channel }
           COMPRESS_PROTOCOL])

/-! ## Completion-callback wiring of `connect`

Source lines 55-56 register the user callback `cb` twice on the fresh
socket: `this._ws.once('error', cb)` and `this._ws.once('open', cb)`.
EventEmitter2's `once` removes only its own registration after it fires:
the two registrations are independent one-shot listeners. `CbListeners`
tracks which of the two registrations is still alive, and `cbCalls`
computes the sequence of invocations of `cb` (with `none` for the open
invocation, which passes no error, and `some e` for an error invocation)
produced by a trace of socket signals. `close` and `message` signals never
invoke `cb` (they are routed to `_onClose` / `_onMessage`). -/

/-- Which of the two `once` registrations of `cb` made by `connect` are
still installed. -/
structure CbListeners where
  onceErrorCb : Bool
  onceOpenCb : Bool

/-- Socket lifecycle signal, as delivered by the `ws` library to the
listeners `connect` registered. -/
inductive WsSignal where
  | opened
  | errored (err : JsValue)
  | closeSignal (code : JsValue) (reason : JsValue)
  | message (data : JsValue)

/-- Invocations of the completion callback `cb` along a signal trace,
given which `once` registrations are still installed: an `opened` signal
fires the still-installed `once('open', cb)` and removes it; an `errored`
signal fires the still-installed `once('error', cb)` and removes it;
`close` and `message` signals never reach `cb`. -/
def cbCallsAux : CbListeners → List WsSignal → List (Option JsValue)
  | _, [] => []
  | l, .opened :: rest =>
    if l.onceOpenCb then
      none :: cbCallsAux { l with onceOpenCb := false } rest
    else
      cbCallsAux l rest
  | l, .errored e :: rest =>
    if l.onceErrorCb then
      some e :: cbCallsAux { l with onceErrorCb := false } rest
    else
      cbCallsAux l rest
  | l, .closeSignal _ _ :: rest => cbCallsAux l rest
  | l, .message _ :: rest => cbCallsAux l rest

/-- Invocations of `cb` along a signal trace starting right after
`connect` returned, i.e. with both `once` registrations installed. -/
def cbCalls (sigs : List WsSignal) : List (Option JsValue) :=
  cbCallsAux { onceErrorCb := true, onceOpenCb := true } sigs

/-! ## Operation traces over the transport state

For the state invariants the claims quantify over arbitrary interleavings
of API calls and socket lifecycle callbacks. `Op` is one such step,
`step` executes it on the transport state, and `runOps` folds a trace
from a given state. The socket-level readyState transitions follow the
`ws` library: a fresh socket is CONNECTING (0), the open event makes it
OPEN (1), `ws.close(..)` makes it CLOSING (2), the close event makes it
CLOSED (3). -/

/-- One step acting on the transport: a public API call (`connect`,
`disconnect`, `reconnect` — with `none` for the omitted-url form) or a
socket lifecycle callback (`open`, `error`, `close`, `message`). -/
inductive Op where
  | connectOp (url : JsValue)
  | disconnectOp
  | reconnectOp (url : Option JsValue)
  | openSig
  | errorSig (err : JsValue)
  | closeSig (code : JsValue) (reason : JsValue)
  | messageSig (data : JsValue)

/-- Execute one step: API calls run the corresponding source method; the
open signal marks the held socket OPEN; the error signal runs `_onError`;
the close signal marks the held socket CLOSED and runs `_onClose`; the
message signal runs `_onMessage` and emits its dispatches. -/
def step (t : Transport) : Op → Transport × List Effect
  | .connectOp u => connect t u
  | .disconnectOp => disconnect t
  | .reconnectOp u => reconnect t u
  | .openSig => ({ t with ws := setReadyState t.ws 1 }, [])
  | .errorSig e => onError t e
  | .closeSig c r =>
    let t1 : Transport := { t with ws := setReadyState t.ws 3 }
    let r1 := onClose t1 c r
    (r1.1, r1.2)
  | .messageSig d => (t, (onMessage d).map (fun p => Effect.emit p.1 [p.2]))

/-- Run a trace of steps from a state, keeping only the final state. -/
def runOps (t : Transport) : List Op → Transport
  | [] => t
  | op :: rest => runOps (step t op).1 rest

/-- Does the step install a fresh socket handle (`connect` or
`reconnect`)? -/
def installsSocket : Op → Bool
  | .connectOp _ => true
  | .reconnectOp _ => true
  | _ => false

/-! ## Concrete fixtures used by counterexamples and witnesses -/

/-- Concrete options for concrete evaluations. -/
def testOpts : Opts :=
  { PUBLIC_KEY := .str "pk", SECRET_KEY := .str "sk",
    MACHINE_NAME := .str "m1", PM2_VERSION := .str "2.0" }

/-- Concrete freshly constructed transport. -/
def testFresh : Transport := mkTransport testOpts (.obj [("hostname", .str "h")])

/-- Concrete transport in the connected state (socket present and OPEN),
as reached by `connect` followed by the open signal. -/
def testConnected : Transport :=
  runOps testFresh [Op.connectOp (.str "ws://km.example"), Op.openSig]

/-! ## Shared helper lemmas -/

/-- Replacing the socket field does not change the connect-time headers,
which read only the options and the daemon metadata. -/
theorem connectHeaders_set_ws (t : Transport) (w : Option Socket) :
    connectHeaders { t with ws := w } = connectHeaders t := rfl

/-- Updating the readyState preserves presence of the socket handle. -/
theorem setReadyState_isSome (w : Option Socket) (rs : Nat) :
    (setReadyState w rs).isSome = w.isSome := by
  cases w <;> rfl

/-- Presence of the socket handle after one step: a `connect`/`reconnect`
step installs a handle, every other step leaves presence unchanged (none
of them ever resets the handle to `null`). -/
theorem step_ws_isSome (t : Transport) (op : Op) :
    ((step t op).1.ws.isSome) = (t.ws.isSome || installsSocket op) := by
  cases op with
  | connectOp u => simp [step, connect, installsSocket]
  | disconnectOp =>
    by_cases h : isConnected t <;>
      simp [step, disconnect, installsSocket, h, setReadyState_isSome]
  | reconnectOp u => simp [step, reconnect, connect, installsSocket]
  | openSig => simp [step, installsSocket, setReadyState_isSome]
  | errorSig e =>
    by_cases h : isConnected t <;>
      simp [step, onError, installsSocket, h, setReadyState_isSome]
  | closeSig c r => simp [step, onClose, installsSocket, setReadyState_isSome]
  | messageSig d => simp [step, installsSocket]

/-- Presence of the socket handle after a trace: it is present exactly
when it was present initially or some step of the trace installed one. -/
theorem runOps_ws_isSome (ops : List Op) :
    ∀ t : Transport, ((runOps t ops).ws.isSome) = (t.ws.isSome || ops.any installsSocket) := by
  induction ops with
  | nil => intro t; simp [runOps]
  | cons op rest ih =>
    intro t
    have h1 : runOps t (op :: rest) = runOps (step t op).1 rest := rfl
    rw [h1, ih, step_ws_isSome, List.any_cons, Bool.or_assoc]

/-! ## Claim C1 — inbound message dispatch -/

/-- Claim C1, counterexample: a message that HAS all three fields
`version`, `channel`, `payload` (each key present) but whose `payload` is
the falsy value `0` produces no event, refuting the stated
if-and-only-if between key presence and dispatch. -/
theorem C1_counterexample :
    hasField (.obj [("version", .str "1"), ("channel", .str "x"), ("payload", .num 0)]) "version" = true ∧
    hasField (.obj [("version", .str "1"), ("channel", .str "x"), ("payload", .num 0)]) "channel" = true ∧
    hasField (.obj [("version", .str "1"), ("channel", .str "x"), ("payload", .num 0)]) "payload" = true ∧
    onMessage (.obj [("version", .str "1"), ("channel", .str "x"), ("payload", .num 0)]) = [] :=
  ⟨rfl, rfl, rfl, rfl⟩

/-- Claim C1 (amended): `_onMessage` dispatches exactly one event — named
exactly the message field `channel`, carrying exactly the message field
`payload` as the sole argument — precisely when the message and all three
fields `version`, `payload`, `channel` are truthy; when any of them is
falsy (in particular when any field is missing) no event is produced and
no error is raised (the handler is a total function). -/
theorem C1_message_dispatch (m : JsValue) :
    (truthy m = true ∧ truthy (getField m "version") = true ∧
       truthy (getField m "payload") = true ∧ truthy (getField m "channel") = true →
      onMessage m = [(getField m "channel", getField m "payload")]) ∧
    (truthy m = false ∨ truthy (getField m "version") = false ∨
       truthy (getField m "payload") = false ∨ truthy (getField m "channel") = false →
      onMessage m = []) := by
  constructor
  · rintro ⟨h1, h2, h3, h4⟩
    simp [onMessage, h1, h2, h3, h4]
  · rintro (h | h | h | h) <;> simp [onMessage, h]

/-- Claim C1, witness: a fully truthy envelope dispatches its payload on
its channel, and an envelope missing `payload` dispatches nothing. -/
theorem C1_message_dispatch_witness :
    onMessage (.obj [("version", .str "1"), ("channel", .str "metrics"),
        ("payload", .obj [("cpu", .num 10)])]) =
      [(.str "metrics", .obj [("cpu", .num 10)])] ∧
    onMessage (.obj [("version", .str "1"), ("channel", .str "x")]) = [] :=
  ⟨(C1_message_dispatch _).1 ⟨rfl, rfl, rfl, rfl⟩,
   (C1_message_dispatch _).2 (Or.inr (Or.inr (Or.inl rfl)))⟩

/-! ## Claim C2 — one-shot completion callback of connect -/

/-- Claim C2: the source registers the completion callback twice, as
`once('error', cb)` and `once('open', cb)`, two independent one-shot
listeners; on the signal trace [open, error] the callback is therefore
invoked twice — once with no error by the open signal and once more with
the error by the later error signal — contradicting the claimed
exactly-once contract. -/
theorem C2_connect_cb_invoked_twice :
    cbCalls [WsSignal.opened, WsSignal.errored (.str "read ECONNRESET")] =
      [none, some (.str "read ECONNRESET")] ∧
    (cbCalls [WsSignal.opened, WsSignal.errored (.str "read ECONNRESET")]).length = 2 :=
  ⟨rfl, rfl⟩

/-! ## Claim C3 — send while connected -/

/-- Claim C3: for truthy channel and data on a connected transport, `send`
performs exactly one socket write, whose content is the serialized
envelope with exactly the three fields: the fixed protocol version, the
given payload and the given channel (and the configured compression
flag); the transport state is unchanged. -/
theorem C3_send_connected_single_write (t : Transport) (c d : JsValue)
    (hc : truthy c = true) (hd : truthy d = true) (hconn : isConnected t = true) :
    send t c d =
      (t, [Effect.write { version := PROTOCOL_VERSION, payload := d, channel := c }
             COMPRESS_PROTOCOL]) := by
  simp [send, hc, hd, hconn]

/-- Claim C3, witness: sending `("metrics", obj [cpu 10])` on a concrete
connected transport produces exactly that one write. -/
theorem C3_send_connected_single_write_witness :
    send testConnected (.str "metrics") (.obj [("cpu", .num 10)]) =
      (testConnected,
       [Effect.write { version := PROTOCOL_VERSION, payload := .obj [("cpu", .num 10)],
                       channel := .str "metrics" } COMPRESS_PROTOCOL]) :=
  C3_send_connected_single_write testConnected (.str "metrics") (.obj [("cpu", .num 10)])
    rfl rfl rfl

/-! ## Claim C4 — error handler closes before emitting -/

/-- Claim C4: when an error signal arrives while connected, `_onError`
first issues `ws.close(400, err.message)` and only afterwards emits the
`error` event (the effect list is in execution order); when not
connected, no close is issued and the `error` event is still emitted. -/
theorem C4_onError_close_then_emit (t : Transport) (err : JsValue) :
    (isConnected t = true →
      (onError t err).2 =
        [Effect.socketClose 400 (getField err "message"), Effect.emit (.str "error") [err]]) ∧
    (isConnected t = false →
      (onError t err).2 = [Effect.emit (.str "error") [err]]) := by
  constructor <;> intro h <;> simp [onError, h]

/-- Claim C4, witness: on a concrete connected transport the error
handler closes with code 400 and the error message before emitting, and
on a concrete fresh transport it only emits. -/
theorem C4_onError_close_then_emit_witness :
    (onError testConnected (.obj [("message", .str "boom")])).2 =
      [Effect.socketClose 400 (.str "boom"),
       Effect.emit (.str "error") [.obj [("message", .str "boom")]]] ∧
    (onError testFresh (.obj [("message", .str "boom")])).2 =
      [Effect.emit (.str "error") [.obj [("message", .str "boom")]]] :=
  ⟨(C4_onError_close_then_emit testConnected _).1 rfl,
   (C4_onError_close_then_emit testFresh _).2 rfl⟩

/-! ## Claim C5 — send preconditions -/

/-- Claim C5: when the channel or the data is falsy (missing/empty), or
the transport is not connected, `send` performs no write and no other
effect, raises nothing (it is a total function), and returns the
transport state unchanged. -/
theorem C5_send_noop (t : Transport) (c d : JsValue)
    (h : truthy c = false ∨ truthy d = false ∨ isConnected t = false) :
    send t c d = (t, []) := by
  rcases h with h | h | h
  · simp [send, h]
  · simp [send, h]
  · by_cases hc : truthy c <;> by_cases hd : truthy d <;> simp [send, hc, hd, h]

/-- Claim C5, witness: an empty channel on a connected transport, and a
valid channel/data pair on a disconnected transport, both produce no
effect and leave the state unchanged. -/
theorem C5_send_noop_witness :
    send testConnected (.str "") (.num 1) = (testConnected, []) ∧
    send testFresh (.str "metrics") (.num 1) = (testFresh, []) :=
  ⟨C5_send_noop testConnected (.str "") (.num 1) (Or.inl rfl),
   C5_send_noop testFresh (.str "metrics") (.num 1) (Or.inr (Or.inr rfl))⟩

/-! ## Claim C6 — reconnect with omitted address -/

/-- Claim C6, counterexample: on a fresh transport with no prior address
(`this._host` is still `undefined`), `reconnect` with the address omitted
does NOT fail with an InvalidState error; it proceeds to open a socket
with the `undefined` address (the effect trace consists of exactly that
socket open — a socket operation is attempted, and no failure of any
kind is produced before it). -/
theorem C6_counterexample :
    testFresh.host = .undefined ∧
    (reconnect testFresh none).2 =
      [Effect.socketOpen .undefined (connectHeaders testFresh)] :=
  ⟨rfl, rfl⟩

/-- Claim C6 (amended): with the address omitted, `reconnect` reuses
`this._host`, the last address recorded by `connect` — unconditionally:
it performs no InvalidState check, so when no prior address exists it
simply opens the new socket with the `undefined` address. The last effect
of `reconnect` is always the socket open, to `this._host` in the omitted
form and to the given url otherwise. -/
theorem C6_reconnect_reuses_host (t : Transport) (u : JsValue) :
    (reconnect t none).2.getLast? =
      some (Effect.socketOpen t.host (connectHeaders t)) ∧
    (reconnect t (some u)).2.getLast? =
      some (Effect.socketOpen u (connectHeaders t)) ∧
    (reconnect t none).1.ws =
      some { url := t.host, headers := connectHeaders t, readyState := 0 } := by
  by_cases h : isConnected t <;>
    simp [reconnect, disconnect, connect, h, connectHeaders_set_ws]

/-! ## Claim C7 — connection headers -/

/-- Claim C7, counterexample: on a concrete transport, the header names
that `connect` attaches to the socket are `X-KM-PUBLIC`, `X-KM-DATA`,
`X-KM-SERVER`, `X-PM2-VERSION` — not the claimed `X-PUBLIC-KEY`,
`X-AUTH-DATA`, `X-SERVER-NAME`, `X-CLIENT-VERSION`. -/
theorem C7_counterexample :
    (connect testFresh (.str "ws://km.example")).2 =
      [Effect.socketOpen (.str "ws://km.example") (connectHeaders testFresh)] ∧
    (connectHeaders testFresh).map Prod.fst =
      ["X-KM-PUBLIC", "X-KM-DATA", "X-KM-SERVER", "X-PM2-VERSION"] ∧
    (connectHeaders testFresh).map Prod.fst ≠
      ["X-PUBLIC-KEY", "X-AUTH-DATA", "X-SERVER-NAME", "X-CLIENT-VERSION"] :=
  ⟨rfl, rfl, by decide⟩

/-- Claim C7 (amended): every `connect` opens the socket with exactly the
four headers `X-KM-PUBLIC`, `X-KM-DATA`, `X-KM-SERVER`, `X-PM2-VERSION`,
carrying respectively the configured public key, the cipher of the
JSON-serialized system metadata under the secret key, the configured
machine name, and the client (PM2) version. -/
theorem C7_connect_headers (t : Transport) (u : JsValue) :
    (connect t u).2 =
      [Effect.socketOpen u
        [("X-KM-PUBLIC", t.opts.PUBLIC_KEY),
         ("X-KM-DATA", cipherMessage (jsonStringify t.daemonMetadata) t.opts.SECRET_KEY),
         ("X-KM-SERVER", t.opts.MACHINE_NAME),
         ("X-PM2-VERSION", t.opts.PM2_VERSION)]] :=
  rfl

/-! ## Claim C8 — socket handle after teardown -/

/-- Claim C8, counterexample: after connect, open, a graceful disconnect
and the resulting close signal — a completed teardown — the transport is
disconnected, yet the socket handle is still present (the source never
resets `this._ws` to `null`), refuting the invariant that a disconnected
transport has a nil handle. -/
theorem C8_counterexample :
    isConnected (runOps testFresh
      [Op.connectOp (.str "ws://km.example"), Op.openSig, Op.disconnectOp,
       Op.closeSig (.num 1000) (.str "bye")]) = false ∧
    (runOps testFresh
      [Op.connectOp (.str "ws://km.example"), Op.openSig, Op.disconnectOp,
       Op.closeSig (.num 1000) (.str "bye")]).ws.isSome = true :=
  ⟨rfl, rfl⟩

/-- Claim C8 (amended): over every trace of operations from the
constructed state, the socket handle is nil exactly as long as no
`connect` or `reconnect` step has occurred; `disconnect` and the
close/error handlers close the socket but never reset the handle to nil,
so the handle is non-nil from the first connect on, connected or not. -/
theorem C8_ws_nil_iff_never_connected (opts : Opts) (meta : JsValue) (ops : List Op) :
    (runOps (mkTransport opts meta) ops).ws.isSome = ops.any installsSocket := by
  rw [runOps_ws_isSome ops (mkTransport opts meta)]
  simp [mkTransport]

/-! ## Claim C9 — ping never throws -/

/-- Claim C9: `ping` is a total function of the transport state and data
(it never throws to the caller): whenever the underlying socket ping
fails — in particular when no socket handle exists or the connection is
already torn down — the failure is captured and emitted as the `error`
lifecycle event, and otherwise the serialized ping frame is sent. -/
theorem C9_ping_never_throws (t : Transport) (d : JsValue) :
    (wsPing t.ws = Except.ok () ∧ ping t d = [Effect.pingFrame (jsonStringify d)]) ∨
    (∃ e, wsPing t.ws = Except.error e ∧ ping t d = [Effect.emit (.str "error") [e]]) := by
  cases h : wsPing t.ws with
  | ok v =>
    left
    cases v
    exact ⟨rfl, by simp [ping, h]⟩
  | error e =>
    right
    exact ⟨e, rfl, by simp [ping, h]⟩

/-! ## Claim C10 — truthiness, not key presence -/

/-- Claim C10: the field checks in `send` and `_onMessage` are truthiness
checks: any falsy channel or data (e.g. a present `0`, `false`, `""` or
`null`) makes `send` write nothing, and any falsy `version`, `payload` or
`channel` field (present or not) makes `_onMessage` dispatch nothing — at
the public interface a present-but-falsy field behaves exactly like a
missing one. -/
theorem C10_truthiness_not_presence :
    (∀ (t : Transport) (c d : JsValue),
      truthy c = false ∨ truthy d = false → send t c d = (t, [])) ∧
    (∀ m : JsValue,
      truthy (getField m "version") = false ∨ truthy (getField m "payload") = false ∨
        truthy (getField m "channel") = false →
      onMessage m = []) := by
  constructor
  · rintro t c d (h | h) <;> simp [send, h]
  · rintro m (h | h | h) <;> simp [onMessage, h]

/-- Claim C10, witness: a present-but-falsy data value (`0`) on a
connected transport yields no write, and a message whose `payload` key is
present with the falsy value `false` yields no dispatch. -/
theorem C10_truthiness_not_presence_witness :
    send testConnected (.str "cx") (.num 0) = (testConnected, []) ∧
    onMessage (.obj [("version", .str "1"), ("channel", .str "cx"),
        ("payload", .bool false)]) = [] :=
  ⟨C10_truthiness_not_presence.1 testConnected (.str "cx") (.num 0) (Or.inr rfl),
   C10_truthiness_not_presence.2 _ (Or.inr (Or.inl rfl))⟩
